import Mathlib

/-!
Shallow embedding of `custom_components/petkit/__init__.py`, a Home
Assistant integration that polls the Petkit cloud API, keeps an
authenticated session, reconciles a device roster into an in-memory
registry and fans change notifications out to bound observer entities.

Python dicts are modelled as association lists with first-occurrence
lookup, in-place replacement on assignment and append on fresh keys,
matching dict semantics on the duplicate-free lists the code builds.
Optional values (`dict.get` returning `None`) are `Option`; Python
truthiness is made explicit where the source relies on it.
-/

namespace Petkit

/-- Truthiness of an optional string, as Python evaluates `not x` for a
value that is either `None` or a `str`: `None` and `""` are falsy. -/
def truthyStr : Option String → Bool
  | none => false
  | some s => !s.isEmpty

/-- Truthiness of an optional integer: Python treats `None` and `0` as
falsy (the source's `if not did: continue`). -/
def truthyInt : Option Int → Bool
  | none => false
  | some n => n != 0

/-! ### Python dict of optional-string values (session/config records) -/

/-- A Python dict with string keys and possibly-`None` string values, as
used for the account config and the persisted auth record. -/
abbrev PyDict := List (String × Option String)

/-- Key presence plus stored value: `some v` when the key is present with
value `v` (which may itself be `none`, i.e. Python `None`). -/
def dlookup : PyDict → String → Option (Option String)
  | [], _ => none
  | (k', v') :: t, k => if k' == k then some v' else dlookup t k

/-- Python `d.get(k)`: `None` when the key is absent, else the value
(which conflates an absent key with a stored `None`). -/
def pyget (d : PyDict) (k : String) : Option String :=
  match dlookup d k with
  | none => none
  | some v => v

/-- Python `d[k] = v`: replace in place when the key exists, append
otherwise. -/
def dset : PyDict → String → Option String → PyDict
  | [], k, v => [(k, v)]
  | (k', v') :: t, k, v =>
      if k' == k then (k, v) :: t else (k', v') :: dset t k v

/-- Python `d.pop(k, None)`: the dict without key `k`. -/
def dpop : PyDict → String → PyDict
  | [], _ => []
  | (k', v') :: t, k => if k' == k then dpop t k else (k', v') :: dpop t k

/-- `PetkitAccount.async_check_auth(save=True)` (the persistence write):
copies the config, drops the password key, reuses the stored `update_at`
when the token is unchanged and stamps `now` otherwise, then saves the
record. Returns the record written to the store. -/
def async_check_auth_save (config old : PyDict) (now : String) : PyDict :=
  let cfg := dpop config "password"
  if pyget cfg "token" == pyget old "token" then
    dset cfg "update_at" (pyget old "update_at")
  else
    dset cfg "update_at" (some now)

/-! ### Device state blobs and the device registry -/

/-- The nested `status` object of a device state blob, with the fields
the source reads (`desiccantLeftDays`, `food`, `errorMsg`). -/
structure StatusBlob where
  food : Option Int := none
  desiccantLeftDays : Option Int := none
  errorMsg : Option String := none
deriving Repr, DecidableEq

/-- A device state blob (`dvc['data']` merged with the roster entry's
top-level type tag), restricted to the fields the source reads. -/
structure Dat where
  id : Option Int := none
  type : Option String := none
  name : Option String := none
  state : Option Int := none
  desc : Option String := none
  status : Option StatusBlob := none
deriving Repr, DecidableEq

/-- `PetkitDevice.status`: `self.data.get('status') or {}`. -/
def Dat.statusOf (d : Dat) : StatusBlob := d.status.getD {}

/-- `PetkitDevice.food_state`: `self.status.get('food', 0) == 0`. -/
def food_state (d : Dat) : Bool := d.statusOf.food.getD 0 == 0

/-- The attribute snapshot `PetkitDevice.food_state_attrs` returns. -/
structure FoodAttrs where
  state : Option Int
  desc : String
deriving Repr, DecidableEq

/-- `PetkitDevice.food_state_attrs`: `state` is the raw food code and
`desc` is `'normal' if not self.food_state else 'few'`. -/
def food_state_attrs (d : Dat) : FoodAttrs :=
  { state := d.statusOf.food
    desc := if !(food_state d) then "normal" else "few" }

/-- `PetkitBinaryEntity.update` for the `food_state` binding: the device
has a `food_state` attribute, so `_attr_is_on = not not food_state`. -/
def foodBinary_is_on (d : Dat) : Bool := !(!(food_state d))

/-- A `PetkitDevice`: the current state blob plus the keys of the
listener-callback dict (`self.listeners`); `update_data` synchronously
invokes every listener callback, which we record by its key. -/
structure Device where
  data : Dat
  listeners : List String
deriving Repr, DecidableEq

/-- `PetkitDevice.device_id`: `self.data.get('id')`. -/
def Device.device_id (d : Device) : Option Int := d.data.id

/-- `PetkitDevice.update_data` followed by `_handle_listeners`: replaces
the blob wholesale and invokes every registered listener; returns the
mutated device and the keys of the listeners invoked. -/
def Device.update_data (d : Device) (dat : Dat) : Device × List String :=
  ({ d with data := dat }, d.listeners)

/-- The device registry `hass.data[DOMAIN][CONF_DEVICES]`, a dict from
vendor device id to the Device object. -/
abbrev Registry := List (Int × Device)

/-- Dict lookup in the registry. -/
def regGet : Registry → Int → Option Device
  | [], _ => none
  | (k, v) :: t, did => if k == did then some v else regGet t did

/-- Dict assignment in the registry: replace in place, else append. -/
def regSet : Registry → Int → Device → Registry
  | [], did, d => [(did, d)]
  | (k, v) :: t, did, d =>
      if k == did then (did, d) :: t else (k, v) :: regSet t did d

/-- The upsert step of `DevicesCoordinator._async_update_data` (lines
232-238): an existing device is mutated in place via `update_data` (the
registry keeps the same object, whose listeners fire); a new id gets a
fresh `PetkitDevice` (whose `__init__` starts with an empty listener
dict, so its initial `update_data` invokes nobody). Returns the registry
after the step, the device the roster entry now maps to, and the
listener keys invoked. -/
def upsert (reg : Registry) (did : Int) (dat : Dat) : Registry × Device × List String :=
  match regGet reg did with
  | some old =>
      let r := old.update_data dat
      (regSet reg did r.1, r.1, r.2)
  | none =>
      let dvc : Device := { data := dat, listeners := [] }
      (regSet reg did dvc, dvc, [])

/-! ### Entity binding (`DevicesCoordinator.update_hass_entities`) -/

/-- An observer entity as the binder constructs it (a
`PetkitSensorEntity` / `PetkitBinarySensorEntity` / `PetkitSwitchEntity`
for capability `name` of device `device_id` in `domain`). -/
structure Obs where
  domain : String
  name : String
  device_id : Option Int
deriving Repr, DecidableEq

/-- Python f-string rendering of a possibly-`None` id. -/
def pyShow : Option Int → String
  | none => "None"
  | some n => toString n

/-- The composite key `f'{domain}.{k}.{dvc.device_id}'`. -/
def obsKey (domain name : String) (did : Option Int) : String :=
  domain ++ "." ++ name ++ "." ++ pyShow did

/-- The coordinator's `self._subs`: composite key → bound observer. -/
abbrev Subs := List (String × Obs)

/-- Python `key in self._subs`. -/
def subsHas : Subs → String → Bool
  | [], _ => false
  | (k', _) :: t, k => k' == k || subsHas t k

/-- `self._subs[key] = new`; the binder only assigns keys it has just
checked to be absent, so the assignment appends. -/
def subsSet (s : Subs) (k : String) (o : Obs) : Subs := s ++ [(k, o)]

/-- The capability names of `PetkitDevice`'s declarative map for a
domain: the keys of `hass_sensor`, `hass_binary_sensor` and
`hass_switch`; `none` for a domain with no such attribute. -/
def hassCaps (domain : String) : Option (List String) :=
  if domain = "sensor" then some ["state", "desiccant"]
  else if domain = "binary_sensor" then some ["food_state"]
  else if domain = "switch" then some ["feeding"]
  else none

/-- The binder's loop over the capability names: a key already in
`subs` is skipped; otherwise the observer is constructed, recorded
under its key and handed to the `add` callback (one `add([new])` call
per created observer). Returns the updated `subs` and the created
observers in creation order. -/
def bindList (domain : String) (did : Option Int) : List String → Subs → Subs × List Obs
  | [], subs => (subs, [])
  | k :: ks, subs =>
      let key := obsKey domain k did
      if subsHas subs key then bindList domain did ks subs
      else
        let o : Obs := { domain := domain, name := k, device_id := did }
        ((bindList domain did ks (subsSet subs key o)).1,
         o :: (bindList domain did ks (subsSet subs key o)).2)

/-- `DevicesCoordinator.update_hass_entities(domain, dvc)`: returns
early when the host gave no `add_entities` callback for the domain or
the device lacks the `hass_<domain>` capability map; otherwise runs the
binding loop. -/
def update_hass_entities (addAvailable : Bool) (domain : String) (dvc : Device)
    (subs : Subs) : Subs × List Obs :=
  if !addAvailable then (subs, [])
  else
    match hassCaps domain with
    | none => (subs, [])
    | some ks => bindList domain dvc.device_id ks subs

/-! ### Roster responses and the coordinator tick -/

/-- A roster entry: `dvc.get('data')` and `dvc.get('type')`. -/
structure RawDevice where
  data : Option Dat := none
  type : Option String := none
deriving Repr, DecidableEq

/-- A roster response, restricted to the fields the coordinator reads:
`rsp.get('error', {}).get('code', 0)` and
`rsp.get('result', {}).get('devices')`. -/
structure RosterRsp where
  errorCode : Option Int := none
  devices : Option (List RawDevice) := none
deriving Repr, DecidableEq

/-- A login response, restricted to the fields `async_login` reads:
`rsp.get('result', {}).get('session') or {}` then `.get('id')` and
`.get('userId')`. -/
structure LoginRsp where
  sessionId : Option String := none
  userId : Option String := none
deriving Repr, DecidableEq

/-- `async_login` succeeds iff the session id is truthy
(`if not sid: ... return False`). -/
def loginSucceeds (rsp : LoginRsp) : Bool := truthyStr rsp.sessionId

/-- One roster entry of the reconcile loop (lines 226-240): take the
entry's `data` blob (`or {}`), skip a falsy id, stamp the top-level type
tag into the blob (`dvc.get('type') or ''`), upsert, then bind entities
for each of the three supported domains. -/
def processEntry (addB : String → Bool) (reg : Registry) (subs : Subs)
    (dvc : RawDevice) : Registry × Subs :=
  let dat := dvc.data.getD {}
  match dat.id with
  | none => (reg, subs)
  | some did =>
      if did == 0 then (reg, subs)
      else
        let dat' := { dat with type := some (dvc.type.getD "") }
        let u := upsert reg did dat'
        let s1 := update_hass_entities (addB "sensor") "sensor" u.2.1 subs
        let s2 := update_hass_entities (addB "binary_sensor") "binary_sensor" u.2.1 s1.1
        let s3 := update_hass_entities (addB "switch") "switch" u.2.1 s2.1
        (u.1, s3.1)

/-- The reconcile loop over the fetched roster list. -/
def reconcileAll (addB : String → Bool) : Registry → Subs → List RawDevice → Registry × Subs
  | reg, subs, [] => (reg, subs)
  | reg, subs, dvc :: rest =>
      let p := processEntry addB reg subs dvc
      reconcileAll addB p.1 p.2 rest

/-- What one `_async_update_data` tick did: the registry and binding
table it left behind, how many times `async_login` was called, and how
many times the roster fetch was re-issued after the first fetch. -/
structure TickResult where
  registry : Registry
  subs : Subs
  loginCalls : Nat
  retriedFetches : Nat
deriving Repr, DecidableEq

/-- The auth-retry phase of `_async_update_data` (lines 216-222): when
the first response's embedded error code is 5, call `async_login` once
and, only if it succeeded, re-issue the fetch once, adopting the second
response. Returns the response the tick proceeds with, the number of
login calls and the number of retried fetches. -/
def authPhase (rsp1 : RosterRsp) (loginRsp : LoginRsp) (rsp2 : RosterRsp) :
    RosterRsp × Nat × Nat :=
  if rsp1.errorCode.getD 0 == 5 then
    if loginSucceeds loginRsp then (rsp2, 1, 1) else (rsp1, 1, 0)
  else (rsp1, 0, 0)

/-- A whole `_async_update_data` tick: auth-retry phase, then
`rsp.get('result', {}).get('devices') or []` and the reconcile loop.
The environment is given as the first roster response, the login
response consumed if a re-login happens, and the roster response a
retried fetch would return. -/
def tick (addB : String → Bool) (reg : Registry) (subs : Subs)
    (rsp1 : RosterRsp) (loginRsp : LoginRsp) (rsp2 : RosterRsp) : TickResult :=
  let a := authPhase rsp1 loginRsp rsp2
  let rc := reconcileAll addB reg subs (a.1.devices.getD [])
  { registry := rc.1, subs := rc.2, loginCalls := a.2.1, retriedFetches := a.2.2 }

/-! ### ApiClient boundary (`PetkitAccount.request`) -/

/-- A JSON value as `await req.json()` may produce it. -/
inductive PyJson where
  | null
  | bool (b : Bool)
  | num (n : Int)
  | str (s : String)
  | arr (elems : List PyJson)
  | obj (fields : List (String × PyJson))

/-- Python truthiness of a JSON value, for the source's `... or {}`. -/
def PyJson.truthy : PyJson → Bool
  | .null => false
  | .bool b => b
  | .num n => n != 0
  | .str s => !s.isEmpty
  | .arr l => !l.isEmpty
  | .obj l => !l.isEmpty

/-- How the transport attempt inside `request`'s `try` block ends: a
decoded JSON value, a `TypeError` (malformed response or non-JSON body,
with the exception text), or any other exception. -/
inductive TransportOutcome where
  | ok (v : PyJson)
  | typeErr (msg : String)
  | otherErr

/-- `PetkitAccount.request`: returns `await req.json() or {}` on
success; a `TypeError` is caught, logged and turned into `{}`; any
other exception escapes the method. -/
def request : TransportOutcome → Except Unit PyJson
  | .ok v => .ok (if v.truthy then v else .obj [])
  | .typeErr _ => .ok (.obj [])
  | .otherErr => .error ()

/-! ### Account credentials (`PetkitAccount.password`, `async_login`) -/

/-- The Python exception kind the embedding tracks. -/
inductive PyError where
  | typeError
deriving Repr, DecidableEq

/-- Python `len` applied to a value that is either a `str` or `None`:
`len(None)` raises `TypeError`. -/
def pyLen : Option String → Except PyError Nat
  | none => .error .typeError
  | some s => .ok s.length

/-- Python `f'{x}'` for a value that is either a `str` or `None`. -/
def pyFStr : Option String → String
  | none => "None"
  | some s => s

/-- The pure hash step of the `password` property on an actual string:
a value not of length 32 is replaced by its MD5 hex digest, a value of
length 32 is returned unchanged. The external `hashlib` digest is a
parameter; its defining property (a 32-character hex string) is a
hypothesis where needed. -/
def hashPwd (md5hex : String → String) (p : String) : String :=
  if p.length ≠ 32 then md5hex p else p

/-- The `password` property (lines 112-117): reads the configured
password (possibly absent), takes its `len` (raising `TypeError` on
`None`) and hashes values not already of length 32. -/
def password_prop (md5hex : String → String) (pwd : Option String) :
    Except PyError String := do
  let n ← pyLen pwd
  if n ≠ 32 then pure (md5hex (pyFStr pwd)) else pure (pyFStr pwd)

/-- The per-account config fields the setup and login paths read. -/
structure AccountConfig where
  username : Option String := none
  password : Option String := none
  token : Option String := none
  uid : Option String := none
deriving Repr, DecidableEq

/-- Line 76 of `async_setup`: an account config is accepted (not
skipped) iff its password or its token is truthy. -/
def acceptedBySetup (cfg : AccountConfig) : Bool :=
  truthyStr cfg.password || truthyStr cfg.token

/-- `PetkitAccount.async_login`: builds the login parameters (which
evaluates the `password` property, so its exceptions propagate), then
reads the session object of the response; a falsy session id is a
failed login (`False`), a truthy one stores token and user id and
returns `True`. -/
def async_login (md5hex : String → String) (cfg : AccountConfig) (rsp : LoginRsp) :
    Except PyError (Bool × AccountConfig) := do
  let pwd ← password_prop md5hex cfg.password
  let _pms := (1, cfg.username, pwd, "")
  if loginSucceeds rsp then
    pure (true, { cfg with token := rsp.sessionId, uid := rsp.userId })
  else
    pure (false, cfg)

/-! ### Feed action (`PetkitDevice.feeding_now`) -/

/-- Python 3 `round` on a rational: round half to even. -/
def pythonRound (q : ℚ) : ℤ :=
  let f := ⌊q⌋
  if q - f < 1 / 2 then f
  else if q - f > 1 / 2 then f + 1
  else if f % 2 = 0 then f else f + 1

/-- The endpoint path `feeding_now` selects from the (lower-cased)
device type tag. -/
def feeding_api (typ : String) : String :=
  if typ = "feedermini" then "feedermini/save_dailyfeed"
  else if typ = "d3" ∨ typ = "d4" then typ ++ "/saveDailyFeed"
  else "feeder/save_dailyfeed"

/-- The request parameters `feeding_now` builds. -/
structure FeedParams where
  deviceId : Option Int
  day : String
  time : Int
  amount : Int
deriving Repr, DecidableEq

/-- `PetkitDevice.feeding_now(amount)`: the endpoint chosen by device
type, with device id, the current date string, the immediate-time
sentinel `-1` and `round(amount * 10)`. -/
def feeding_now (typ : String) (did : Option Int) (day : String) (amount : ℚ) :
    String × FeedParams :=
  (feeding_api typ,
   { deviceId := did, day := day, time := -1, amount := pythonRound (amount * 10) })

/-! ### Dictionary lemmas -/

lemma dlookup_dset_self (d : PyDict) (k : String) (v : Option String) :
    dlookup (dset d k v) k = some v := by
  induction d with
  | nil => simp [dset, dlookup]
  | cons p t ih =>
      obtain ⟨k', v'⟩ := p
      by_cases h : k' == k
      · simp [dset, h, dlookup]
      · simp [dset, h, dlookup, ih]

lemma dlookup_dset_ne (d : PyDict) (k k' : String) (v : Option String)
    (h : (k' == k) = false) :
    dlookup (dset d k' v) k = dlookup d k := by
  induction d with
  | nil => simp [dset, dlookup, h]
  | cons p t ih =>
      obtain ⟨k₀, v₀⟩ := p
      by_cases h0 : k₀ == k'
      · have hk : k₀ = k' := by simpa using h0
        subst hk
        simp [dset, h0, dlookup, h]
      · simp [dset, h0, dlookup, ih]

lemma dlookup_dpop_self (d : PyDict) (k : String) :
    dlookup (dpop d k) k = none := by
  induction d with
  | nil => simp [dpop, dlookup]
  | cons p t ih =>
      obtain ⟨k', v'⟩ := p
      by_cases h : k' == k
      · simp [dpop, h, ih]
      · simp [dpop, h, dlookup, ih]

lemma dlookup_dpop_ne (d : PyDict) (k k' : String) (h : (k' == k) = false) :
    dlookup (dpop d k') k = dlookup d k := by
  induction d with
  | nil => simp [dpop, dlookup]
  | cons p t ih =>
      obtain ⟨k₀, v₀⟩ := p
      by_cases h0 : k₀ == k'
      · have hk : k₀ = k' := by simpa using h0
        subst hk
        simp [dpop, h0, dlookup, h, ih]
      · simp [dpop, h0, dlookup, ih]

lemma pyget_dset_self (d : PyDict) (k : String) (v : Option String) :
    pyget (dset d k v) k = v := by
  simp [pyget, dlookup_dset_self]

lemma pyget_dpop_ne (d : PyDict) (k k' : String) (h : (k' == k) = false) :
    pyget (dpop d k') k = pyget d k := by
  simp [pyget, dlookup_dpop_ne d k k' h]

/-! ### Claim theorems -/

/-- C4: saving the session record with an unchanged token keeps the
stored `update_at` value, a changed token stamps the current time, and
the record written never contains the password key. -/
theorem C4_session_persist (config old : PyDict) (now : String) :
    pyget (async_check_auth_save config old now) "update_at"
      = (if pyget config "token" = pyget old "token"
         then pyget old "update_at" else some now)
    ∧ dlookup (async_check_auth_save config old now) "password" = none := by
  have hpt : (("password" : String) == "token") = false := by decide
  have hup : (("update_at" : String) == "password") = false := by decide
  have htok : pyget (dpop config "password") "token" = pyget config "token" :=
    pyget_dpop_ne config "token" "password" hpt
  constructor
  · unfold async_check_auth_save
    by_cases h : pyget config "token" = pyget old "token" <;>
      simp [htok, h, pyget_dset_self]
  · unfold async_check_auth_save
    by_cases h : pyget config "token" = pyget old "token" <;>
      simp [htok, h, dlookup_dset_ne _ _ _ _ hup, dlookup_dpop_self]

/-- C9: a transport-level `TypeError` (malformed response, non-JSON
body) is swallowed by `request`, which returns the empty mapping
instead of letting the exception escape the client boundary. -/
theorem C9_type_error_soft (msg : String) :
    request (.typeErr msg) = .ok (.obj []) := rfl

/-- C8: a tick whose fetched roster list is empty leaves the device
registry and the binding table exactly as they were. -/
theorem C8_empty_roster_frame (addB : String → Bool) (reg : Registry) (subs : Subs)
    (rsp1 : RosterRsp) (loginRsp : LoginRsp) (rsp2 : RosterRsp)
    (h : (authPhase rsp1 loginRsp rsp2).1.devices.getD [] = []) :
    (tick addB reg subs rsp1 loginRsp rsp2).registry = reg
    ∧ (tick addB reg subs rsp1 loginRsp rsp2).subs = subs := by
  simp [tick, h, reconcileAll]

/-- Witness for C8 at a concrete empty-roster tick. -/
theorem C8_empty_roster_frame_witness :
    (tick (fun _ => true) [] [] {} {} {}).registry = []
    ∧ (tick (fun _ => true) [] [] {} {} {}).subs = [] :=
  C8_empty_roster_frame (fun _ => true) [] [] {} {} {} rfl

/-- A state blob whose nested status reports food code 0. -/
def foodZeroDat : Dat := { status := some { food := some 0 } }

/-- C3 counterexample: with food code 0 the bound `food_state` observer
reports `desc = "few"` with `_attr_is_on = true`, not "normal"/false as
the claim states. -/
theorem C3_food_zero_counterexample :
    foodBinary_is_on foodZeroDat = true
    ∧ (food_state_attrs foodZeroDat).desc = "few"
    ∧ ¬(foodBinary_is_on foodZeroDat = false
        ∧ (food_state_attrs foodZeroDat).desc = "normal") := by
  refine ⟨rfl, rfl, ?_⟩
  intro h
  exact absurd h.1 (by decide)

/-- C3 (amended): the food-level derivation is the reverse of the
claim: status code 0 makes the `food_state` observer report "few" with
boolean true, and any nonzero code makes it report "normal" with
boolean false. -/
theorem C3_food_state_amended (d : Dat) :
    foodBinary_is_on d = (d.statusOf.food.getD 0 == 0)
    ∧ (food_state_attrs d).desc
        = (if d.statusOf.food.getD 0 = 0 then "few" else "normal") := by
  constructor
  · simp [foodBinary_is_on, food_state]
  · by_cases h : d.statusOf.food.getD 0 = 0 <;>
      simp [food_state_attrs, food_state, h]

/-- C5: the password normalization hash leaves any 32-character value
unchanged, so hashing twice equals hashing once (the external MD5 hex
digest always has length 32, which is the hypothesis). -/
theorem C5_hash_idempotent (md5hex : String → String)
    (h : ∀ s, (md5hex s).length = 32) (p : String) :
    (∀ q, q.length = 32 → hashPwd md5hex q = q)
    ∧ hashPwd md5hex (hashPwd md5hex p) = hashPwd md5hex p := by
  constructor
  · intro q hq
    simp [hashPwd, hq]
  · by_cases hp : p.length = 32 <;> simp [hashPwd, hp, h]

/-- Witness for C5 with a concrete 32-character digest function and a
concrete password. -/
theorem C5_hash_idempotent_witness :
    (∀ q, q.length = 32 →
      hashPwd (fun _ => "0123456789abcdef0123456789abcdef") q = q)
    ∧ hashPwd (fun _ => "0123456789abcdef0123456789abcdef")
        (hashPwd (fun _ => "0123456789abcdef0123456789abcdef") "hunter2")
      = hashPwd (fun _ => "0123456789abcdef0123456789abcdef") "hunter2" :=
  C5_hash_idempotent (fun _ => "0123456789abcdef0123456789abcdef")
    (fun _ => rfl) "hunter2"

/-- C6: `feeding_now` with amount 1.5 on a `feedermini` device hits
`feedermini/save_dailyfeed` with amount parameter 15; `d3` and `d4` map
to `<type>/saveDailyFeed`, and every other type tag maps to
`feeder/save_dailyfeed`. -/
theorem C6_feed_endpoints (typ : String)
    (h1 : typ ≠ "feedermini") (h2 : typ ≠ "d3") (h3 : typ ≠ "d4") :
    (feeding_now "feedermini" (some 1) "20261012" (3 / 2)).1
      = "feedermini/save_dailyfeed"
    ∧ (feeding_now "feedermini" (some 1) "20261012" (3 / 2)).2.amount = 15
    ∧ (feeding_now "d3" (some 2) "20261012" 1).1 = "d3/saveDailyFeed"
    ∧ (feeding_now "d4" (some 3) "20261012" 1).1 = "d4/saveDailyFeed"
    ∧ (feeding_now typ (some 4) "20261012" 1).1 = "feeder/save_dailyfeed" := by
  refine ⟨rfl, ?_, rfl, rfl, ?_⟩
  · norm_num [feeding_now, pythonRound]
  · simp [feeding_now, feeding_api, h1, h2, h3]

/-- Witness for C6 at the concrete type tag "z". -/
theorem C6_feed_endpoints_witness :
    (feeding_now "feedermini" (some 1) "20261012" (3 / 2)).1
      = "feedermini/save_dailyfeed"
    ∧ (feeding_now "feedermini" (some 1) "20261012" (3 / 2)).2.amount = 15
    ∧ (feeding_now "d3" (some 2) "20261012" 1).1 = "d3/saveDailyFeed"
    ∧ (feeding_now "d4" (some 3) "20261012" 1).1 = "d4/saveDailyFeed"
    ∧ (feeding_now "z" (some 4) "20261012" 1).1 = "feeder/save_dailyfeed" :=
  C6_feed_endpoints "z" (by decide) (by decide) (by decide)

/-- C10: an account config holding a session token but no password is
accepted by `async_setup`, yet evaluating the `password` property
raises `TypeError` (`len(None)`), so any login attempt — including the
re-login triggered by the session-expired error code 5 — raises instead
of returning the soft failure `False`. -/
theorem C10_token_only_login_raises (md5hex : String → String)
    (cfg : AccountConfig) (rsp : LoginRsp)
    (h1 : cfg.password = none) (h2 : truthyStr cfg.token = true) :
    acceptedBySetup cfg = true
    ∧ password_prop md5hex cfg.password = .error .typeError
    ∧ async_login md5hex cfg rsp = .error .typeError := by
  obtain ⟨u, p, t, i⟩ := cfg
  have hp : p = none := h1
  subst hp
  refine ⟨?_, rfl, rfl⟩
  simp [acceptedBySetup, truthyStr]
  simpa [truthyStr] using h2

/-- Witness for C10 at a concrete token-only config. -/
theorem C10_token_only_login_raises_witness :
    acceptedBySetup { token := some "tok" } = true
    ∧ password_prop (fun s => s) (AccountConfig.password { token := some "tok" })
        = .error .typeError
    ∧ async_login (fun s => s) { token := some "tok" } {} = .error .typeError :=
  C10_token_only_login_raises (fun s => s) { token := some "tok" } {} rfl rfl

/-! ### Registry lemmas and the upsert claim -/

lemma regGet_regSet_self (r : Registry) (did : Int) (d : Device) :
    regGet (regSet r did d) did = some d := by
  induction r with
  | nil => simp [regSet, regGet]
  | cons p t ih =>
      obtain ⟨k, v⟩ := p
      by_cases h : k == did
      · simp [regSet, h, regGet]
      · simp [regSet, h, regGet, ih]

/-- C2: upserting an id that is already in the registry updates the
existing Device in place — the registry entry keeps its listener table
rather than being replaced by a fresh object with an empty one — and
the update synchronously invokes exactly the listeners registered
before the upsert. -/
theorem C2_upsert_in_place (reg : Registry) (did : Int) (dat : Dat) (d : Device)
    (h : regGet reg did = some d) :
    regGet (upsert reg did dat).1 did = some { d with data := dat }
    ∧ (upsert reg did dat).2.1.listeners = d.listeners
    ∧ (upsert reg did dat).2.2 = d.listeners
    ∧ ∀ l ∈ d.listeners, l ∈ (upsert reg did dat).2.2 := by
  refine ⟨?_, ?_, ?_, ?_⟩ <;>
    simp [upsert, h, Device.update_data, regGet_regSet_self]

/-- Witness for C2 at a concrete one-device registry with one bound
listener. -/
theorem C2_upsert_in_place_witness :
    regGet (upsert [(1, { data := {}, listeners := ["petkit.feeder_1_state"] })]
        1 { state := some 2 }).1 1
      = some { ({ data := {}, listeners := ["petkit.feeder_1_state"] } : Device)
               with data := { state := some 2 } }
    ∧ (upsert [(1, { data := {}, listeners := ["petkit.feeder_1_state"] })]
        1 { state := some 2 }).2.1.listeners = ["petkit.feeder_1_state"]
    ∧ (upsert [(1, { data := {}, listeners := ["petkit.feeder_1_state"] })]
        1 { state := some 2 }).2.2 = ["petkit.feeder_1_state"]
    ∧ ∀ l ∈ ["petkit.feeder_1_state"],
        l ∈ (upsert [(1, { data := {}, listeners := ["petkit.feeder_1_state"] })]
          1 { state := some 2 }).2.2 :=
  C2_upsert_in_place [(1, { data := {}, listeners := ["petkit.feeder_1_state"] })]
    1 { state := some 2 } { data := {}, listeners := ["petkit.feeder_1_state"] } rfl

/-! ### The auth-retry claim -/

/-- C1 counterexample: a tick whose roster response carries error code
5 but whose re-login fails (the login response has no session id)
performs the single re-login and zero retried fetches, so "exactly one
retried roster fetch for any sequence of responses" is false. -/
theorem C1_retry_counterexample :
    (tick (fun _ => true) [] [] { errorCode := some 5 } {} {}).loginCalls = 1
    ∧ (tick (fun _ => true) [] [] { errorCode := some 5 } {} {}).retriedFetches = 0
    ∧ ¬((tick (fun _ => true) [] [] { errorCode := some 5 } {} {}).retriedFetches
          = 1) := by
  refine ⟨rfl, rfl, ?_⟩
  intro h
  exact absurd h (by decide)

/-- C1 (amended): a tick whose roster response carries error code 5
performs exactly one re-login; it retries the roster fetch exactly once
when the re-login succeeds and zero times when it fails, and in every
case performs at most one re-login and at most one retried fetch. -/
theorem C1_auth_retry_amended (addB : String → Bool) (reg : Registry) (subs : Subs)
    (rsp1 : RosterRsp) (loginRsp : LoginRsp) (rsp2 : RosterRsp)
    (h : rsp1.errorCode.getD 0 = 5) :
    (tick addB reg subs rsp1 loginRsp rsp2).loginCalls = 1
    ∧ (tick addB reg subs rsp1 loginRsp rsp2).retriedFetches
        = (if loginSucceeds loginRsp then 1 else 0)
    ∧ (tick addB reg subs rsp1 loginRsp rsp2).loginCalls ≤ 1
    ∧ (tick addB reg subs rsp1 loginRsp rsp2).retriedFetches ≤ 1 := by
  by_cases hl : loginSucceeds loginRsp <;>
    simp [tick, authPhase, h, hl]

/-- Witness for C1 (amended) at a concrete error-5 tick with a
successful re-login. -/
theorem C1_auth_retry_amended_witness :
    (tick (fun _ => true) [] [] { errorCode := some 5 }
        { sessionId := some "s" } {}).loginCalls = 1
    ∧ (tick (fun _ => true) [] [] { errorCode := some 5 }
        { sessionId := some "s" } {}).retriedFetches
        = (if loginSucceeds { sessionId := some "s" } then 1 else 0)
    ∧ (tick (fun _ => true) [] [] { errorCode := some 5 }
        { sessionId := some "s" } {}).loginCalls ≤ 1
    ∧ (tick (fun _ => true) [] [] { errorCode := some 5 }
        { sessionId := some "s" } {}).retriedFetches ≤ 1 :=
  C1_auth_retry_amended (fun _ => true) [] [] { errorCode := some 5 }
    { sessionId := some "s" } {} rfl

lemma subsHas_subsSet (s : Subs) (k key : String) (o : Obs) :
    subsHas (subsSet s key o) k = (subsHas s k || key == k) := by
  induction s with
  | nil => simp [subsSet, subsHas]
  | cons p t ih =>
      obtain ⟨k0, o0⟩ := p
      simp [subsSet, subsHas] at ih ⊢
      rw [ih, Bool.or_assoc]

lemma subsHas_subsSet_of (s : Subs) (k key : String) (o : Obs)
    (h : subsHas s k = true) : subsHas (subsSet s key o) k = true := by
  rw [subsHas_subsSet, h, Bool.true_or]

lemma subsHas_subsSet_self (s : Subs) (key : String) (o : Obs) :
    subsHas (subsSet s key o) key = true := by
  rw [subsHas_subsSet]
  simp

lemma subsHas_of_subsSet_false (s : Subs) (k key : String) (o : Obs)
    (h : subsHas (subsSet s key o) k = false) : subsHas s k = false := by
  rw [subsHas_subsSet] at h
  exact (Bool.or_eq_false_iff.mp h).1

lemma bindList_spec (domain : String) (did : Option Int) :
    ∀ (ks : List String) (subs : Subs),
      (∀ k, subsHas subs k = true → subsHas (bindList domain did ks subs).1 k = true)
      ∧ (∀ k ∈ ks, subsHas (bindList domain did ks subs).1 (obsKey domain k did) = true)
      ∧ (∀ o ∈ (bindList domain did ks subs).2,
           subsHas subs (obsKey o.domain o.name o.device_id) = false)
      ∧ ((bindList domain did ks subs).2.map
           (fun o => obsKey o.domain o.name o.device_id)).Nodup
      ∧ (∀ o ∈ (bindList domain did ks subs).2,
           subsHas (bindList domain did ks subs).1
             (obsKey o.domain o.name o.device_id) = true) := by
  intro ks
  induction ks with
  | nil =>
      intro subs
      simp [bindList]
  | cons k ks ih =>
      intro subs
      by_cases hk : subsHas subs (obsKey domain k did) = true
      · obtain ⟨ih1, ih2, ih3, ih4, ih5⟩ := ih subs
        simp only [bindList, hk, if_true]
        refine ⟨ih1, ?_, ih3, ih4, ih5⟩
        intro q hq
        rcases List.mem_cons.mp hq with h | h
        · subst h; exact ih1 _ hk
        · exact ih2 _ h
      · have hk' : subsHas subs (obsKey domain k did) = false := by
          simpa using hk
        obtain ⟨j1, j2, j3, j4, j5⟩ :=
          ih (subsSet subs (obsKey domain k did) ⟨domain, k, did⟩)
        simp only [bindList, hk', Bool.false_eq_true, if_false]
        refine ⟨?_, ?_, ?_, ?_, ?_⟩
        · intro q hq
          exact j1 q (subsHas_subsSet_of _ _ _ _ hq)
        · intro q hq
          rcases List.mem_cons.mp hq with h | h
          · subst h
            exact j1 _ (subsHas_subsSet_self _ _ _)
          · exact j2 _ h
        · intro o ho
          rcases List.mem_cons.mp ho with h | h
          · subst h
            exact hk'
          · exact subsHas_of_subsSet_false _ _ _ _ (j3 o h)
        · simp only [List.map_cons, List.nodup_cons]
          refine ⟨?_, j4⟩
          intro hmem
          rcases List.mem_map.mp hmem with ⟨o', ho', hko⟩
          have h3 := j3 o' ho'
          rw [hko] at h3
          rw [subsHas_subsSet_self] at h3
          exact absurd h3 (by decide)
        · intro o ho
          rcases List.mem_cons.mp ho with h | h
          · subst h
            exact j1 _ (subsHas_subsSet_self _ _ _)
          · exact j5 o h

lemma bindList_stable (domain : String) (did : Option Int) :
    ∀ (ks : List String) (subs : Subs),
      (∀ k ∈ ks, subsHas subs (obsKey domain k did) = true) →
      bindList domain did ks subs = (subs, []) := by
  intro ks
  induction ks with
  | nil =>
      intro subs _
      simp [bindList]
  | cons k ks ih =>
      intro subs hall
      have hk : subsHas subs (obsKey domain k did) = true := hall k (by simp)
      simp only [bindList, hk, if_true]
      exact ih subs (fun q hq => hall q (by simp [hq]))

/-- C7: entity binding is idempotent: a single bind creates only
observers whose composite key was not yet bound, with pairwise distinct
keys, and leaves every created key bound; binding the same domain and
device again changes nothing and hands nothing to the registration
callback, so at most one observer and one callback invocation happen
per (domain, capability, device) triple. -/
theorem C7_bind_idempotent (addB : Bool) (domain : String) (dvc : Device)
    (subs : Subs) :
    update_hass_entities addB domain dvc
        ((update_hass_entities addB domain dvc subs).1)
      = ((update_hass_entities addB domain dvc subs).1, [])
    ∧ (∀ o ∈ (update_hass_entities addB domain dvc subs).2,
        subsHas subs (obsKey o.domain o.name o.device_id) = false)
    ∧ ((update_hass_entities addB domain dvc subs).2.map
        (fun o => obsKey o.domain o.name o.device_id)).Nodup
    ∧ (∀ o ∈ (update_hass_entities addB domain dvc subs).2,
        subsHas ((update_hass_entities addB domain dvc subs).1)
          (obsKey o.domain o.name o.device_id) = true) := by
  cases addB with
  | false => simp [update_hass_entities]
  | true =>
    rcases hc : hassCaps domain with _ | ks
    · simp [update_hass_entities, hc]
    · obtain ⟨s1, s2, s3, s4, s5⟩ := bindList_spec domain dvc.device_id ks subs
      simp only [update_hass_entities, hc, Bool.not_true, Bool.false_eq_true,
        if_false]
      refine ⟨?_, s3, s4, s5⟩
      exact bindList_stable domain dvc.device_id ks _ (fun q hq => s2 q hq)
end Petkit
